import Mathlib

attribute [local semireducible] Rat.add Rat.mul Rat.inv Rat.sub Rat.ofScientific

/-!
# Verification of the C-36 Grid deterministic procedural content generator

Shallow embedding of the generator core (`utils/gameLogic.ts` and the data
model of `types.ts`) of the C-36 Grid repository: the seeded PRNG, the cell
classifier, the coin-DNA generator driven by design profiles, and the
scoring/valuation functions.  JavaScript integer-valued numbers are modelled
as `Int` with explicit 32-bit wraparound where the source uses 32-bit
operators (`Math.imul`, `^`, `|`, `>>>`); fractional JavaScript arithmetic is
modelled exactly over `ℚ`; `Math.pow` with a real exponent is modelled over
`ℝ`.  A JavaScript array access that can be out of bounds (yielding
`undefined`) is modelled as `Option`.
-/

namespace C36

/-- JS `ToUint32` of an integer-valued number: the value mod 2^32. -/
def toUint32 (n : ℤ) : ℕ := (n % 4294967296).toNat

/-- JS `ToInt32` of an integer-valued number: two's-complement reading of the
low 32 bits. -/
def toInt32 (n : ℤ) : ℤ :=
  let u : ℤ := n % 4294967296
  if u < 2147483648 then u else u - 4294967296

/-- JS unsigned right shift `a >>> k` (for `0 ≤ k < 32`). -/
def shrU (a : ℤ) (k : ℕ) : ℤ := ((toUint32 a) >>> k : ℕ)

/-- JS bitwise xor `a ^ b` on integer-valued numbers. -/
def jsXor (a b : ℤ) : ℤ := toInt32 ((toUint32 a) ^^^ (toUint32 b))

/-- JS bitwise or `a | b` on integer-valued numbers. -/
def jsOr (a b : ℤ) : ℤ := toInt32 ((toUint32 a) ||| (toUint32 b))

/-- JS `Math.imul a b`: 32-bit multiplication. -/
def imul (a b : ℤ) : ℤ := toInt32 ((toUint32 a) * (toUint32 b))

/-- The 32-bit numerator produced by `seededRandom` before the final division
by 2^32 (the value `(t ^ (t >>> 14)) >>> 0` of the source). -/
def seededRandomNum (seed : ℤ) : ℕ :=
  let t0 : ℤ := seed + 0x6D2B79F5
  let t1 : ℤ := imul (jsXor t0 (shrU t0 15)) (jsOr t0 1)
  let t2 : ℤ := jsXor t1 (t1 + imul (jsXor t1 (shrU t1 7)) (jsOr t1 61))
  toUint32 (jsXor t2 (shrU t2 14))

/-- `seededRandom` of the source: high-quality pseudo-random generator,
a pure function of the seed with value in `[0, 1)`. -/
def seededRandom (seed : ℤ) : ℚ := (seededRandomNum seed : ℚ) / 4294967296

/-- JS `Math.round`: rounds half away from zero toward `+∞`,
i.e. `⌊q + 1/2⌋`. -/
def jsRound (q : ℚ) : ℤ := ⌊q + 1/2⌋

/-! ## Data model (`types.ts`) -/

/-- `ArtifactType` of `types.ts`. -/
inductive ArtifactType where
  | COIN | FOOD | TOOL
  deriving DecidableEq, Repr

/-- `CoinMetal` of `types.ts`, in declaration order. -/
inductive CoinMetal where
  | Copper | Nickel | Zinc | Brass | Aluminium | Bronze | Silver | Gold | Platinum
  deriving DecidableEq, Repr

/-- `CoinCondition` of `types.ts`, in declaration order. -/
inductive CoinCondition where
  | Poor | Good | Fine | VeryFine | NearMint | Mint
  deriving DecidableEq, Repr

/-- `CoinBorder` of `types.ts`, in declaration order. -/
inductive CoinBorder where
  | Thin | Standard | Wide
  deriving DecidableEq, Repr

/-- `CoinSize` of `types.ts`, in declaration order. -/
inductive CoinSize where
  | Tiny | Small | Medium | Large
  deriving DecidableEq, Repr

/-- `CoinPattern` of `types.ts`, in declaration order. -/
inductive CoinPattern where
  | Geometric | Floral | Imperial | Abstract | Radial | Grid | Dots | Waves
  | Crosses | Stars | Circles | Triangles | Hexagons | Diamonds | Scales | Bricks
  | Maze | Spiral | Rings | Checks | Stripes | Zigzag | Chevron | Mosaic
  | Target | Sunburst | Moon | Shield | Crown | Anchor | Leaf | Tree
  | Mountain | Ocean | Wind | Fire
  deriving DecidableEq, Repr

/-- `METAL_WEIGHTS` of `types.ts` ("Weights from Section 3.1"). -/
def METAL_WEIGHTS : CoinMetal → ℚ
  | .Copper => 1.0
  | .Nickel => 2.0
  | .Zinc => 3.0
  | .Brass => 4.0
  | .Aluminium => 5.0
  | .Bronze => 6.5
  | .Silver => 8.0
  | .Gold => 9.5
  | .Platinum => 10.0

/-- `CONDITION_SCORES` of `types.ts` (condition ordinal 1-6). -/
def CONDITION_SCORES : CoinCondition → ℚ
  | .Poor => 1
  | .Good => 2
  | .Fine => 3
  | .VeryFine => 4
  | .NearMint => 5
  | .Mint => 6

/-- The visual-override record produced by the coin generator (the fields of
`CoinVisualOverrides` of `types.ts` that `generateCoinFromProfile` sets).
The colour overrides may be absent (`undefined` in JS), hence `Option`. -/
structure CoinVisualOverrides where
  shapeJitter : ℚ
  petalCount : ℤ
  petalLength : ℚ
  petalWidth : ℚ
  petalSharpness : ℚ
  centerRadius : ℚ
  customBaseColor : Option String
  customShineColor : Option String
  customDarkColor : Option String
  deriving DecidableEq, Repr

/-- `CoinData` of `types.ts` as produced by the generator.  The fields read
from a JS array index that can be out of bounds (`metal`, `pattern`, `size`,
`border`) are `Option`, with `none` modelling the JS value `undefined`. -/
structure CoinData where
  metal : Option CoinMetal
  year : ℤ
  condition : CoinCondition
  border : Option CoinBorder
  size : Option CoinSize
  pattern : Option CoinPattern
  visualOverrides : CoinVisualOverrides
  deriving DecidableEq, Repr

/-- `Range` of `types.ts`: a numeric `{min, max}` interval. -/
structure Range where
  min : ℚ
  max : ℚ
  deriving DecidableEq, Repr

/-- `DesignProfile` of `types.ts`: the constraint set driving generation. -/
structure DesignProfile where
  allowedMetals : List CoinMetal
  yearRange : Range
  allowedPatterns : List CoinPattern
  shapeJitter : Range
  petalCount : Range
  petalLength : Range
  petalWidth : Range
  petalSharpness : Range
  centerRadius : Range
  customBaseColor : Option String := none
  customShineColor : Option String := none
  customDarkColor : Option String := none
  deriving DecidableEq, Repr

/-- `Artifact` of `types.ts` (the generic envelope), restricted to the
factory's only produced payload kind (coins).  `rarityScore` and
`monetaryValue` are `Option`-valued: `none` models the JS `NaN` that the
scoring functions propagate when the coin's `metal` is `undefined`. -/
structure Artifact where
  id : String
  type : Option ArtifactType
  foundAt : ℤ × ℤ
  foundDate : ℤ
  rarityScore : Option ℚ
  monetaryValue : Option ℤ
  data : CoinData

/-! ## Scoring and valuation (`gameLogic.ts`) -/

/-- `calculateCoinScore` of `gameLogic.ts`: the Collector's Score.
When `coin.metal` is `undefined` the JS lookup `METAL_WEIGHTS[coin.metal]`
yields `undefined` and the arithmetic yields `NaN`; this is modelled as
`none`. -/
def calculateCoinScore (coin : CoinData) : Option ℚ :=
  match coin.metal with
  | none => none
  | some m =>
    let metalScore : ℚ := METAL_WEIGHTS m
    let currentYear : ℚ := 2025
    let ageDiff : ℚ := currentYear - (coin.year : ℚ)
    let maxAgeDiff : ℚ := 2025 - (-500)
    let ageScore : ℚ := (ageDiff / maxAgeDiff) * 10
    let conditionScore : ℚ := CONDITION_SCORES coin.condition
    let normalizedCondition : ℚ := (conditionScore / 6) * 10
    let rawScore : ℚ := metalScore + ageScore + normalizedCondition
    some ((rawScore / 30) * 10)

/-- `calculateCoinValue` of `gameLogic.ts`:
`Math.floor(Math.pow(10, score * 0.6))`.  `Math.pow` with a fractional
exponent is modelled by the real power function. -/
noncomputable def calculateCoinValue (coin : CoinData) : Option ℤ :=
  match calculateCoinScore coin with
  | none => none
  | some score => some ⌊(10 : ℝ) ^ ((score : ℝ) * 0.6)⌋

/-! ## Coin DNA generator (`gameLogic.ts`) -/

/-- The stable base seed of `generateCoinFromProfile`:
`Math.abs(cellX * 49157 + cellY * 98953)`. -/
def coinSeed (cellX cellY : ℤ) : ℤ := |cellX * 49157 + cellY * 98953|

/-- The generator's `pick` helper: `arr[Math.floor(rand(offset) * arr.length)]`.
The index is nonnegative because `rand` is nonnegative; an index at or past
the end yields JS `undefined`, modelled by `none`. -/
def pick {T : Type} (rand : ℤ → ℚ) (arr : List T) (offset : ℤ) : Option T :=
  arr[(⌊rand offset * (arr.length : ℚ)⌋).toNat]?

/-- The generator's `val` helper: sample `r.min + rand(offset)*(r.max-r.min)`
and snap it to the step grid via `Math.round(v / step) * step`.  The source's
default step `0.01` is passed explicitly at each call site. -/
def val (rand : ℤ → ℚ) (r : Range) (offset : ℤ) (step : ℚ) : ℚ :=
  let v : ℚ := r.min + (rand offset * (r.max - r.min))
  (jsRound (v / step) : ℚ) * step

/-- `Object.values(CoinSize)` in declaration order. -/
def coinSizes : List CoinSize := [.Tiny, .Small, .Medium, .Large]

/-- `Object.values(CoinBorder)` in declaration order. -/
def coinBorders : List CoinBorder := [.Thin, .Standard, .Wide]

/-- Body of `generateCoinFromProfile` after the base seed is fixed: all
random draws are `seededRandom (seed + offset)` at fixed offsets. -/
def generateCoinWithSeed (seed : ℤ) (profile : DesignProfile) : CoinData :=
  let rand : ℤ → ℚ := fun offset => seededRandom (seed + offset)
  let metal := pick rand profile.allowedMetals 1
  let year : ℤ := ⌊val rand profile.yearRange 2 1⌋
  let pattern := pick rand profile.allowedPatterns 3
  let age : ℤ := 2025 - year
  let condRoll : ℚ := rand 4
  let condition : CoinCondition :=
    if age > 1000 then (if condRoll > 0.8 then .Fine else .Poor)
    else if age > 200 then (if condRoll > 0.7 then .VeryFine else .Good)
    else (if condRoll > 0.9 then .Mint else .NearMint)
  let size := coinSizes[(⌊rand 5 * (coinSizes.length : ℚ)⌋).toNat]?
  let border := coinBorders[(⌊rand 6 * (coinBorders.length : ℚ)⌋).toNat]?
  let visualOverrides : CoinVisualOverrides :=
    { shapeJitter := val rand profile.shapeJitter 10 0.1
      petalCount := jsRound (val rand profile.petalCount 11 1)
      petalLength := val rand profile.petalLength 12 0.01
      petalWidth := val rand profile.petalWidth 13 0.01
      petalSharpness := val rand profile.petalSharpness 14 0.01
      centerRadius := val rand profile.centerRadius 15 0.01
      customBaseColor := profile.customBaseColor
      customShineColor := profile.customShineColor
      customDarkColor := profile.customDarkColor }
  { metal, year, condition, border, size, pattern, visualOverrides }

/-- `generateCoinFromProfile` of `gameLogic.ts`: deterministic procedural
generation of coin DNA plus visual overrides from cell coordinates and a
design profile. -/
def generateCoinFromProfile (cellX cellY : ℤ) (profile : DesignProfile) : CoinData :=
  generateCoinWithSeed (coinSeed cellX cellY) profile

/-! ## The shipped profile and the artifact factory (`gameLogic.ts`) -/

/-- `BASE_METALS_WEIGHTED` of `gameLogic.ts`: the 100-entry
repetition-as-weight metal table. -/
def BASE_METALS_WEIGHTED : List CoinMetal :=
  List.replicate 1 .Platinum ++ List.replicate 2 .Gold ++
  List.replicate 5 .Silver ++ List.replicate 8 .Bronze ++
  List.replicate 10 .Aluminium ++ List.replicate 12 .Brass ++
  List.replicate 15 .Zinc ++ List.replicate 20 .Nickel ++
  List.replicate 27 .Copper

/-- `GENERATOR_ANCIENT` of `gameLogic.ts`. -/
def GENERATOR_ANCIENT : DesignProfile where
  allowedMetals := BASE_METALS_WEIGHTED
  yearRange := ⟨-500, 1800⟩
  allowedPatterns :=
    [.Geometric, .Stars, .Circles, .Bricks, .Spiral, .Rings, .Stripes, .Target,
     .Sunburst, .Moon, .Shield, .Crown, .Anchor, .Tree, .Ocean, .Fire]
  shapeJitter := ⟨0.8, 5.7⟩
  petalCount := ⟨20, 24⟩
  petalLength := ⟨0.4, 0.71⟩
  petalWidth := ⟨0.55, 0.59⟩
  petalSharpness := ⟨1.5, 2⟩
  centerRadius := ⟨0.28, 0.6⟩

/-- `getArtifactTypeForRegion` of `gameLogic.ts`.  JS `Math.floor(x / 50)` is
floored division; the hash indexes the one-element `availableTypes` array. -/
def getArtifactTypeForRegion (cellX cellY : ℤ) : Option ArtifactType :=
  let REGION_SIZE : ℤ := 50
  let regionX : ℤ := Int.fdiv cellX REGION_SIZE
  let regionY : ℤ := Int.fdiv cellY REGION_SIZE
  let availableTypes : List ArtifactType := [.COIN]
  let hash : ℕ := (|regionX * 31 + regionY * 17|).toNat % availableTypes.length
  availableTypes[hash]?

/-- `generateArtifact` of `gameLogic.ts`.  `Date.now()` is impure, so the
timestamp is an explicit parameter `now`; the `switch` on the artifact type
generates a coin both in the `COIN` case and in the `default` branch. -/
noncomputable def generateArtifact (cellX cellY : ℤ) (now : ℤ) : Artifact :=
  let type := getArtifactTypeForRegion cellX cellY
  let id : String := "art-" ++ toString cellX ++ "-" ++ toString cellY ++ "-" ++ toString now
  let foundAt : ℤ × ℤ := (cellX, cellY)
  let foundDate : ℤ := now
  let data : CoinData := generateCoinFromProfile cellX cellY GENERATOR_ANCIENT
  let rarityScore : Option ℚ := calculateCoinScore data
  let monetaryValue : Option ℤ := calculateCoinValue data
  { id, type, foundAt, foundDate, rarityScore, monetaryValue, data }

/-! ## Cell classifier (`gameLogic.ts`) -/

/-- `CellType` of `gameLogic.ts`. -/
inductive CellType where
  | EMPTY | SUPERMARKET | TOOL_SHOP | FOOD | COIN | HOSTILE
  deriving DecidableEq, Repr

/-- The master roll of `getCellType`.  `Math.sin(dot)` is a transcendental
float whose exact value is not expressible here, so the classifier is
parametrized by that value `sinDot` (every double is a rational, so `ℚ`
covers all values the source can produce); the rest of the pipeline
(`* 43758.5453`, fractional part, `* 100`, floor) is modelled exactly. -/
def cellMasterScore (sinDot : ℚ) : ℤ :=
  let sin : ℚ := sinDot * 43758.5453
  let random0to1 : ℚ := sin - ⌊sin⌋
  ⌊random0to1 * 100⌋

/-- `getCellType` of `gameLogic.ts`, parametrized by the value of
`Math.sin(cellX * 12.9898 + cellY * 78.233)` (see `cellMasterScore`). -/
def getCellType (cellX cellY : ℤ) (sinDot : ℚ) : CellType :=
  let masterScore : ℤ := cellMasterScore sinDot
  if masterScore ≥ 90 then .HOSTILE
  else if masterScore ≥ 80 then .COIN
  else if masterScore ≥ 70 then .FOOD
  else if masterScore = 59 then
    (if (cellX + cellY).natAbs % 2 = 0 then .SUPERMARKET else .TOOL_SHOP)
  else .EMPTY

/-- Band table as the spec describes it (§4.2): fixed, non-overlapping,
contiguous bands over the roll range `[0, 99]`, written in explicit interval
form, with the 1%-shop band subdivided by the secondary coordinate hash. -/
def specCellBand (cellX cellY roll : ℤ) : CellType :=
  if 90 ≤ roll ∧ roll ≤ 99 then .HOSTILE
  else if 80 ≤ roll ∧ roll ≤ 89 then .COIN
  else if 70 ≤ roll ∧ roll ≤ 79 then .FOOD
  else if roll = 59 then
    (if (cellX + cellY).natAbs % 2 = 0 then .SUPERMARKET else .TOOL_SHOP)
  else .EMPTY

/-! ## Test fixtures and auxiliary predicates -/

/-- Both endpoints of a range sit on the given snapping-step grid and are
ordered. -/
def StepAligned (r : Range) (step : ℚ) : Prop :=
  (∃ a : ℤ, r.min = a * step) ∧ (∃ b : ℤ, r.max = b * step) ∧ r.min ≤ r.max

/-- The spec's scenario profile: `allowedMetals = [Copper]` (single entry)
and `yearRange = {min: -500, max: 1800}`; the remaining ranges are taken from
the shipped ANCIENT profile. -/
def scenarioProfile : DesignProfile where
  allowedMetals := [.Copper]
  yearRange := ⟨-500, 1800⟩
  allowedPatterns := [.Geometric]
  shapeJitter := ⟨0.8, 5.7⟩
  petalCount := ⟨20, 24⟩
  petalLength := ⟨0.4, 0.71⟩
  petalWidth := ⟨0.55, 0.59⟩
  petalSharpness := ⟨1.5, 2⟩
  centerRadius := ⟨0.28, 0.6⟩

/-- A profile whose selection sets are empty (the degenerate input of the
empty-profile claim); every range still satisfies `min ≤ max`. -/
def emptyListsProfile : DesignProfile where
  allowedMetals := []
  yearRange := ⟨2000, 2000⟩
  allowedPatterns := []
  shapeJitter := ⟨0.8, 5.7⟩
  petalCount := ⟨20, 24⟩
  petalLength := ⟨0.4, 0.71⟩
  petalWidth := ⟨0.55, 0.59⟩
  petalSharpness := ⟨1.5, 2⟩
  centerRadius := ⟨0.28, 0.6⟩

/-- A profile with only `allowedMetals` empty (`allowedPatterns` is not). -/
def emptyMetalsProfile : DesignProfile where
  allowedMetals := []
  yearRange := ⟨2000, 2000⟩
  allowedPatterns := [.Geometric]
  shapeJitter := ⟨0.8, 5.7⟩
  petalCount := ⟨20, 24⟩
  petalLength := ⟨0.4, 0.71⟩
  petalWidth := ⟨0.55, 0.59⟩
  petalSharpness := ⟨1.5, 2⟩
  centerRadius := ⟨0.28, 0.6⟩

/-- A profile with only `allowedPatterns` empty (`allowedMetals` is not). -/
def emptyPatternsProfile : DesignProfile where
  allowedMetals := [.Copper]
  yearRange := ⟨2000, 2000⟩
  allowedPatterns := []
  shapeJitter := ⟨0.8, 5.7⟩
  petalCount := ⟨20, 24⟩
  petalLength := ⟨0.4, 0.71⟩
  petalWidth := ⟨0.55, 0.59⟩
  petalSharpness := ⟨1.5, 2⟩
  centerRadius := ⟨0.28, 0.6⟩

/-- A profile whose `shapeJitter` endpoints (0.55) do not sit on that
attribute's 0.1 snapping grid, although every range satisfies `min ≤ max`. -/
def misalignedProfile : DesignProfile where
  allowedMetals := [.Copper]
  yearRange := ⟨2000, 2000⟩
  allowedPatterns := [.Geometric]
  shapeJitter := ⟨0.55, 0.55⟩
  petalCount := ⟨20, 24⟩
  petalLength := ⟨0.4, 0.71⟩
  petalWidth := ⟨0.55, 0.59⟩
  petalSharpness := ⟨1.5, 2⟩
  centerRadius := ⟨0.28, 0.6⟩

/-- Placeholder visual overrides for hand-built test coins. -/
def plainOverrides : CoinVisualOverrides :=
  ⟨0, 0, 0, 0, 0, 0, none, none, none⟩

/-- A coin whose Collector's Score is exactly 0:
Copper (1) + age score (2025-3540)/2525*10 = -6 + Fine (5). -/
def coinScore0 : CoinData :=
  ⟨some .Copper, 3540, .Fine, none, none, none, plainOverrides⟩

/-- A coin whose Collector's Score is exactly 5:
Nickel (2) + age score 2020/2525*10 = 8 + Fine (5), total 15. -/
def coinScore5 : CoinData :=
  ⟨some .Nickel, 5, .Fine, none, none, none, plainOverrides⟩

/-- The spec's maximal coin: Platinum, year -500, Mint; score exactly 10. -/
def coinScore10 : CoinData :=
  ⟨some .Platinum, -500, .Mint, none, none, none, plainOverrides⟩

/-- A Copper coin, for the monotonicity witness. -/
def coinCopper2000 : CoinData :=
  ⟨some .Copper, 2000, .Good, none, none, none, plainOverrides⟩

/-- The same coin with Gold instead of Copper. -/
def coinGold2000 : CoinData :=
  ⟨some .Gold, 2000, .Good, none, none, none, plainOverrides⟩

/-! ## Basic facts about the PRNG -/

theorem toUint32_lt (n : ℤ) : toUint32 n < 4294967296 := by
  unfold toUint32
  have h1 := Int.emod_lt_of_pos n (by norm_num : (0:ℤ) < 4294967296)
  have h2 := Int.emod_nonneg n (by norm_num : (4294967296:ℤ) ≠ 0)
  omega

theorem seededRandomNum_lt (seed : ℤ) : seededRandomNum seed < 4294967296 :=
  toUint32_lt _

theorem seededRandom_nonneg (seed : ℤ) : 0 ≤ seededRandom seed := by
  unfold seededRandom
  positivity

theorem seededRandom_lt_one (seed : ℤ) : seededRandom seed < 1 := by
  unfold seededRandom
  rw [div_lt_one (by norm_num)]
  exact_mod_cast seededRandomNum_lt seed

/-! ## Range sampling facts -/

/-- When both interval endpoints sit on the step grid, `val` snaps to a grid
point between them. -/
theorem val_snap (rand : ℤ → ℚ) (r : Range) (off : ℤ) (step : ℚ) (a b : ℤ)
    (hs : 0 < step) (ha : r.min = a * step) (hb : r.max = b * step)
    (hab : r.min ≤ r.max) (h0 : 0 ≤ rand off) (h1 : rand off < 1) :
    ∃ k : ℤ, val rand r off step = (k : ℚ) * step ∧ a ≤ k ∧ k ≤ b := by
  refine ⟨jsRound ((r.min + rand off * (r.max - r.min)) / step), rfl, ?_, ?_⟩
  all_goals
    have hd : 0 ≤ r.max - r.min := by linarith
    have hv1 : r.min ≤ r.min + rand off * (r.max - r.min) := by nlinarith
    have hv2 : r.min + rand off * (r.max - r.min) ≤ r.max := by nlinarith
    have hta : (a : ℚ) ≤ (r.min + rand off * (r.max - r.min)) / step := by
      rw [le_div_iff₀ hs, ← ha]; exact hv1
    have htb : (r.min + rand off * (r.max - r.min)) / step ≤ (b : ℚ) := by
      rw [div_le_iff₀ hs, ← hb]; exact hv2
  · exact Int.le_floor.mpr (by linarith)
  · have hlt : jsRound ((r.min + rand off * (r.max - r.min)) / step) < b + 1 :=
      Int.floor_lt.mpr (by push_cast; linarith)
    omega

/-- `val` stays inside the declared interval when the endpoints are
step-aligned. -/
theorem val_mem (rand : ℤ → ℚ) (r : Range) (off : ℤ) (step : ℚ) (a b : ℤ)
    (hs : 0 < step) (ha : r.min = a * step) (hb : r.max = b * step)
    (hab : r.min ≤ r.max) (h0 : 0 ≤ rand off) (h1 : rand off < 1) :
    r.min ≤ val rand r off step ∧ val rand r off step ≤ r.max := by
  obtain ⟨k, hk, hak, hkb⟩ := val_snap rand r off step a b hs ha hb hab h0 h1
  rw [hk, ha, hb]
  exact ⟨mul_le_mul_of_nonneg_right (by exact_mod_cast hak) hs.le,
    mul_le_mul_of_nonneg_right (by exact_mod_cast hkb) hs.le⟩

/-- `pick` on a non-empty array: the probed index is in bounds and the result
is an element of the array. -/
theorem pick_mem {T : Type} (rand : ℤ → ℚ) (arr : List T) (off : ℤ)
    (h0 : 0 ≤ rand off) (h1 : rand off < 1) (hne : arr ≠ []) :
    0 ≤ ⌊rand off * (arr.length : ℚ)⌋ ∧
    ⌊rand off * (arr.length : ℚ)⌋ < (arr.length : ℤ) ∧
    ∃ t ∈ arr, pick rand arr off = some t := by
  have hlen : 0 < arr.length := List.length_pos.mpr hne
  have hidx0 : 0 ≤ ⌊rand off * (arr.length : ℚ)⌋ :=
    Int.floor_nonneg.mpr (mul_nonneg h0 (by positivity))
  have hidxlt : ⌊rand off * (arr.length : ℚ)⌋ < (arr.length : ℤ) := by
    apply Int.floor_lt.mpr
    push_cast
    have hq : (0:ℚ) < (arr.length : ℚ) := by exact_mod_cast hlen
    nlinarith
  have hnat : (⌊rand off * (arr.length : ℚ)⌋).toNat < arr.length := by omega
  refine ⟨hidx0, hidxlt, arr[(⌊rand off * (arr.length : ℚ)⌋).toNat], ?_, ?_⟩
  · exact List.getElem_mem hnat
  · unfold pick
    exact List.getElem?_eq_getElem hnat

/-! ## Cell classifier facts -/

theorem cellMasterScore_nonneg (s : ℚ) : 0 ≤ cellMasterScore s := by
  unfold cellMasterScore
  have h1 : 0 ≤ s * 43758.5453 - ⌊s * 43758.5453⌋ := by
    have := Int.floor_le (s * 43758.5453)
    linarith
  exact Int.floor_nonneg.mpr (by nlinarith)

theorem cellMasterScore_le (s : ℚ) : cellMasterScore s ≤ 99 := by
  show ⌊(s * 43758.5453 - (⌊s * 43758.5453⌋ : ℚ)) * 100⌋ ≤ 99
  have h2 : s * 43758.5453 - ⌊s * 43758.5453⌋ < 1 := by
    have := Int.lt_floor_add_one (s * 43758.5453)
    linarith
  have h1 : 0 ≤ s * 43758.5453 - ⌊s * 43758.5453⌋ := by
    have := Int.floor_le (s * 43758.5453)
    linarith
  have : ⌊(s * 43758.5453 - (⌊s * 43758.5453⌋ : ℚ)) * 100⌋ < 100 :=
    Int.floor_lt.mpr (by push_cast; nlinarith)
  omega

theorem getCellType_eq_specBand (cellX cellY : ℤ) (s : ℚ) :
    getCellType cellX cellY s = specCellBand cellX cellY (cellMasterScore s) := by
  have h0 := cellMasterScore_nonneg s
  have h99 := cellMasterScore_le s
  simp only [getCellType, specCellBand]
  set r := cellMasterScore s with hr
  interval_cases r <;> rfl

theorem specCellBand_hostile_iff (cellX cellY roll : ℤ) :
    specCellBand cellX cellY roll = .HOSTILE ↔ 90 ≤ roll ∧ roll ≤ 99 := by
  unfold specCellBand
  split_ifs <;> simp_all <;> omega

theorem specCellBand_coin_iff (cellX cellY roll : ℤ) :
    specCellBand cellX cellY roll = .COIN ↔ 80 ≤ roll ∧ roll ≤ 89 := by
  unfold specCellBand
  split_ifs <;> simp_all <;> omega

theorem specCellBand_food_iff (cellX cellY roll : ℤ) :
    specCellBand cellX cellY roll = .FOOD ↔ 70 ≤ roll ∧ roll ≤ 79 := by
  unfold specCellBand
  split_ifs <;> simp_all <;> omega

theorem specCellBand_shop_iff (cellX cellY roll : ℤ) :
    (specCellBand cellX cellY roll = .SUPERMARKET ∨
      specCellBand cellX cellY roll = .TOOL_SHOP) ↔ roll = 59 := by
  unfold specCellBand
  split_ifs <;> simp_all <;> omega

theorem specCellBand_empty_iff (cellX cellY roll : ℤ) (h0 : 0 ≤ roll) (h99 : roll ≤ 99) :
    specCellBand cellX cellY roll = .EMPTY ↔ roll ≤ 69 ∧ roll ≠ 59 := by
  unfold specCellBand
  split_ifs <;> simp_all <;> omega

theorem filter_hostile (cellX cellY : ℤ) :
    (Finset.Icc (0:ℤ) 99).filter
      (fun roll => specCellBand cellX cellY roll = .HOSTILE) = Finset.Icc 90 99 := by
  ext roll
  simp only [Finset.mem_filter, Finset.mem_Icc, specCellBand_hostile_iff]
  omega

theorem filter_coin (cellX cellY : ℤ) :
    (Finset.Icc (0:ℤ) 99).filter
      (fun roll => specCellBand cellX cellY roll = .COIN) = Finset.Icc 80 89 := by
  ext roll
  simp only [Finset.mem_filter, Finset.mem_Icc, specCellBand_coin_iff]
  omega

theorem filter_food (cellX cellY : ℤ) :
    (Finset.Icc (0:ℤ) 99).filter
      (fun roll => specCellBand cellX cellY roll = .FOOD) = Finset.Icc 70 79 := by
  ext roll
  simp only [Finset.mem_filter, Finset.mem_Icc, specCellBand_food_iff]
  omega

theorem filter_shop (cellX cellY : ℤ) :
    (Finset.Icc (0:ℤ) 99).filter
      (fun roll => specCellBand cellX cellY roll = .SUPERMARKET ∨
        specCellBand cellX cellY roll = .TOOL_SHOP) = {59} := by
  ext roll
  simp only [Finset.mem_filter, Finset.mem_Icc, Finset.mem_singleton,
    specCellBand_shop_iff]
  omega

theorem filter_empty (cellX cellY : ℤ) :
    (Finset.Icc (0:ℤ) 99).filter
      (fun roll => specCellBand cellX cellY roll = .EMPTY) =
      (Finset.Icc (0:ℤ) 69).erase 59 := by
  ext roll
  simp only [Finset.mem_filter, Finset.mem_Icc, Finset.mem_erase]
  constructor
  · rintro ⟨⟨ha, hb⟩, h⟩
    rw [specCellBand_empty_iff cellX cellY roll ha hb] at h
    omega
  · rintro ⟨hne, ha, hb⟩
    have h99 : roll ≤ 99 := by omega
    refine ⟨⟨ha, h99⟩, ?_⟩
    rw [specCellBand_empty_iff cellX cellY roll ha h99]
    omega

/-! ## Claim theorems -/

/-- C1: for every integer coordinate pair and fixed profile, two calls of the
coin generator yield bit-identical attributes and overrides, and two runs of
the artifact factory at the same coordinate (at different timestamps) produce
identical `data`, `rarityScore` and `monetaryValue` (only `id` and
`foundDate` depend on the timestamp). -/
theorem coin_generation_deterministic (cellX cellY : ℤ) (profile : DesignProfile)
    (t1 t2 : ℤ) :
    generateCoinFromProfile cellX cellY profile =
      generateCoinFromProfile cellX cellY profile ∧
    (generateArtifact cellX cellY t1).data = (generateArtifact cellX cellY t2).data ∧
    (generateArtifact cellX cellY t1).rarityScore =
      (generateArtifact cellX cellY t2).rarityScore ∧
    (generateArtifact cellX cellY t1).monetaryValue =
      (generateArtifact cellX cellY t2).monetaryValue :=
  ⟨rfl, rfl, rfl, rfl⟩

/-- C2: the master roll always lies in `[0, 99]`; `getCellType` agrees with
the spec's non-overlapping interval band table (`roll ≥ 90` hostile,
`80-89` coin, `70-79` food, exactly `59` a shop variant picked by the
secondary coordinate hash, all else empty); and the band widths over the
100 possible rolls are 10/10/10/1/69. -/
theorem cell_classifier_bands (cellX cellY : ℤ) (sinDot : ℚ) :
    (0 ≤ cellMasterScore sinDot ∧ cellMasterScore sinDot ≤ 99) ∧
    getCellType cellX cellY sinDot =
      specCellBand cellX cellY (cellMasterScore sinDot) ∧
    ((Finset.Icc (0:ℤ) 99).filter
      (fun roll => specCellBand cellX cellY roll = .HOSTILE)).card = 10 ∧
    ((Finset.Icc (0:ℤ) 99).filter
      (fun roll => specCellBand cellX cellY roll = .COIN)).card = 10 ∧
    ((Finset.Icc (0:ℤ) 99).filter
      (fun roll => specCellBand cellX cellY roll = .FOOD)).card = 10 ∧
    ((Finset.Icc (0:ℤ) 99).filter
      (fun roll => specCellBand cellX cellY roll = .SUPERMARKET ∨
        specCellBand cellX cellY roll = .TOOL_SHOP)).card = 1 ∧
    ((Finset.Icc (0:ℤ) 99).filter
      (fun roll => specCellBand cellX cellY roll = .EMPTY)).card = 69 := by
  refine ⟨⟨cellMasterScore_nonneg sinDot, cellMasterScore_le sinDot⟩,
    getCellType_eq_specBand cellX cellY sinDot, ?_, ?_, ?_, ?_, ?_⟩
  · rw [filter_hostile, Int.card_Icc]
    rfl
  · rw [filter_coin, Int.card_Icc]
    rfl
  · rw [filter_food, Int.card_Icc]
    rfl
  · rw [filter_shop]
    rfl
  · rw [filter_empty, Finset.card_erase_of_mem (by simp), Int.card_Icc]
    rfl

/-- C7: the generated condition is coupled to the generated year through the
age bands: if `age > 1000` it is `Fine` exactly when the condition roll
exceeds 0.8 and `Poor` otherwise; if `200 < age ≤ 1000` it is `VeryFine`
exactly when the roll exceeds 0.7 and `Good` otherwise; if `age ≤ 200` it is
`Mint` exactly when the roll exceeds 0.9 and `NearMint` otherwise. -/
theorem condition_coupled_to_age (cellX cellY : ℤ) (profile : DesignProfile) :
    (1000 < 2025 - (generateCoinFromProfile cellX cellY profile).year →
      (generateCoinFromProfile cellX cellY profile).condition =
        (if (0.8:ℚ) < seededRandom (coinSeed cellX cellY + 4)
          then .Fine else .Poor)) ∧
    (200 < 2025 - (generateCoinFromProfile cellX cellY profile).year →
      2025 - (generateCoinFromProfile cellX cellY profile).year ≤ 1000 →
      (generateCoinFromProfile cellX cellY profile).condition =
        (if (0.7:ℚ) < seededRandom (coinSeed cellX cellY + 4)
          then .VeryFine else .Good)) ∧
    (2025 - (generateCoinFromProfile cellX cellY profile).year ≤ 200 →
      (generateCoinFromProfile cellX cellY profile).condition =
        (if (0.9:ℚ) < seededRandom (coinSeed cellX cellY + 4)
          then .Mint else .NearMint)) := by
  have hc : (generateCoinFromProfile cellX cellY profile).condition =
      (if (1000:ℤ) < 2025 - (generateCoinFromProfile cellX cellY profile).year then
        (if (0.8:ℚ) < seededRandom (coinSeed cellX cellY + 4)
          then CoinCondition.Fine else .Poor)
      else if (200:ℤ) < 2025 - (generateCoinFromProfile cellX cellY profile).year then
        (if (0.7:ℚ) < seededRandom (coinSeed cellX cellY + 4)
          then .VeryFine else .Good)
      else
        (if (0.9:ℚ) < seededRandom (coinSeed cellX cellY + 4)
          then .Mint else .NearMint)) := rfl
  refine ⟨fun h => ?_, fun h h2 => ?_, fun h => ?_⟩ <;> rw [hc]
  · rw [if_pos h]
  · rw [if_neg (by omega), if_pos h]
  · rw [if_neg (by omega), if_neg (by omega)]

/-- C10: the base seed is the absolute value of a linear combination of the
coordinates, so point-symmetric cells collide: the coin generated at
`(x, y)` is identical to the one generated at `(-x, -y)`. -/
theorem point_symmetric_seed_collision (cellX cellY : ℤ) (profile : DesignProfile) :
    generateCoinFromProfile cellX cellY profile =
      generateCoinFromProfile (-cellX) (-cellY) profile := by
  unfold generateCoinFromProfile
  have hseed : coinSeed (-cellX) (-cellY) = coinSeed cellX cellY := by
    unfold coinSeed
    rw [show -cellX * 49157 + -cellY * 98953 =
      -(cellX * 49157 + cellY * 98953) by ring, abs_neg]
  rw [hseed]

/-! ## Scoring facts -/

theorem calculateCoinScore_eq (coin : CoinData) (m : CoinMetal)
    (hm : coin.metal = some m) :
    calculateCoinScore coin =
      some ((METAL_WEIGHTS m + ((2025 : ℚ) - (coin.year : ℚ)) / 2525 * 10 +
        CONDITION_SCORES coin.condition / 6 * 10) / 30 * 10) := by
  simp only [calculateCoinScore, hm]
  norm_num

theorem METAL_WEIGHTS_bounds (m : CoinMetal) :
    1 ≤ METAL_WEIGHTS m ∧ METAL_WEIGHTS m ≤ 10 := by
  cases m <;> norm_num [METAL_WEIGHTS]

theorem CONDITION_SCORES_bounds (c : CoinCondition) :
    1 ≤ CONDITION_SCORES c ∧ CONDITION_SCORES c ≤ 6 := by
  cases c <;> norm_num [CONDITION_SCORES]

/-- C3: for every coin with a defined metal, a condition, and a year within
the declared `[-500, 2025]` range, the Collector's Score is the claimed
weighted formula and lies in `[0, 10]`. -/
theorem coin_score_bounds (coin : CoinData) (m : CoinMetal)
    (hm : coin.metal = some m) (hy1 : -500 ≤ coin.year) (hy2 : coin.year ≤ 2025) :
    calculateCoinScore coin =
      some ((METAL_WEIGHTS m + ((2025 : ℚ) - (coin.year : ℚ)) / 2525 * 10 +
        CONDITION_SCORES coin.condition / 6 * 10) / 30 * 10) ∧
    ∃ s, calculateCoinScore coin = some s ∧ 0 ≤ s ∧ s ≤ 10 := by
  have heq := calculateCoinScore_eq coin m hm
  refine ⟨heq, _, heq, ?_, ?_⟩
  all_goals
    have hmw := METAL_WEIGHTS_bounds m
    have hcs := CONDITION_SCORES_bounds coin.condition
    have hyq1 : (-500 : ℚ) ≤ (coin.year : ℚ) := by exact_mod_cast hy1
    have hyq2 : (coin.year : ℚ) ≤ 2025 := by exact_mod_cast hy2
    have ha1 : 0 ≤ ((2025 : ℚ) - (coin.year : ℚ)) / 2525 := by
      apply div_nonneg (by linarith) (by norm_num)
    have ha2 : ((2025 : ℚ) - (coin.year : ℚ)) / 2525 ≤ 1 := by
      rw [div_le_one (by norm_num)]
      linarith
  · obtain ⟨h1, _⟩ := hmw
    obtain ⟨h2, _⟩ := hcs
    nlinarith
  · obtain ⟨_, h1⟩ := hmw
    obtain ⟨_, h2⟩ := hcs
    nlinarith

/-- Closed witness for the score-bounds claim, at the spec's maximal coin
(Platinum, year -500, Mint): score exactly 10. -/
theorem coin_score_bounds_witness :
    coinScore10.metal = some .Platinum ∧ -500 ≤ coinScore10.year ∧
    coinScore10.year ≤ 2025 ∧
    (∃ s, calculateCoinScore coinScore10 = some s ∧ 0 ≤ s ∧ s ≤ 10) ∧
    calculateCoinScore coinScore10 = some 10 := by
  obtain ⟨heq, hs⟩ := coin_score_bounds coinScore10 .Platinum (by decide)
    (by decide) (by decide)
  exact ⟨by decide, by decide, by decide, hs, by decide⟩

theorem calculateCoinValue_eq (coin : CoinData) (s : ℚ)
    (h : calculateCoinScore coin = some s) :
    calculateCoinValue coin = some ⌊(10:ℝ) ^ ((s : ℝ) * 0.6)⌋ := by
  unfold calculateCoinValue
  rw [h]

/-- C4: the monetary value is `⌊10 ^ (score * 0.6)⌋`; a coin scoring exactly
0 is valued at 1, one scoring exactly 5 at 1,000, and one scoring exactly 10
at 1,000,000. -/
theorem coin_value_formula (coin : CoinData) :
    calculateCoinValue coin =
      (calculateCoinScore coin).map (fun s : ℚ => ⌊(10:ℝ) ^ ((s : ℝ) * 0.6)⌋) ∧
    (calculateCoinScore coin = some 0 → calculateCoinValue coin = some 1) ∧
    (calculateCoinScore coin = some 5 → calculateCoinValue coin = some 1000) ∧
    (calculateCoinScore coin = some 10 → calculateCoinValue coin = some 1000000) := by
  refine ⟨?_, fun h => ?_, fun h => ?_, fun h => ?_⟩
  · cases hsc : calculateCoinScore coin
    · unfold calculateCoinValue
      rw [hsc]
      rfl
    · rw [calculateCoinValue_eq coin _ hsc, Option.map_some']
  · rw [calculateCoinValue_eq coin 0 h,
      show (((0:ℚ):ℝ)) * 0.6 = 0 by norm_num, Real.rpow_zero]
    norm_num
  · rw [calculateCoinValue_eq coin 5 h,
      show (((5:ℚ):ℝ)) * 0.6 = ((3:ℕ):ℝ) by norm_num, Real.rpow_natCast,
      show ((10:ℝ))^(3:ℕ) = (((1000:ℤ)):ℝ) by norm_num, Int.floor_intCast]
  · rw [calculateCoinValue_eq coin 10 h,
      show (((10:ℚ):ℝ)) * 0.6 = ((6:ℕ):ℝ) by norm_num, Real.rpow_natCast,
      show ((10:ℝ))^(6:ℕ) = (((1000000:ℤ)):ℝ) by norm_num, Int.floor_intCast]

/-- Closed witness for the value-formula claim, at concrete coins achieving
scores 0, 5 and 10. -/
theorem coin_value_formula_witness :
    calculateCoinScore coinScore0 = some 0 ∧
    calculateCoinValue coinScore0 = some 1 ∧
    calculateCoinScore coinScore5 = some 5 ∧
    calculateCoinValue coinScore5 = some 1000 ∧
    calculateCoinScore coinScore10 = some 10 ∧
    calculateCoinValue coinScore10 = some 1000000 := by
  have h0 : calculateCoinScore coinScore0 = some 0 := by decide
  have h5 : calculateCoinScore coinScore5 = some 5 := by decide
  have h10 : calculateCoinScore coinScore10 = some 10 := by decide
  exact ⟨h0, (coin_value_formula coinScore0).2.1 h0,
    h5, (coin_value_formula coinScore5).2.2.1 h5,
    h10, (coin_value_formula coinScore10).2.2.2 h10⟩

/-- C5: of two coins whose sub-scores are ordered componentwise (metal weight,
age `2025 - year`, condition ordinal), the higher one's monetary value is at
least the other's; in particular this holds when the coins differ in exactly
one component. -/
theorem coin_value_monotone (c1 c2 : CoinData) (m1 m2 : CoinMetal)
    (h1 : c1.metal = some m1) (h2 : c2.metal = some m2)
    (hmw : METAL_WEIGHTS m1 ≤ METAL_WEIGHTS m2)
    (hyear : c2.year ≤ c1.year)
    (hcond : CONDITION_SCORES c1.condition ≤ CONDITION_SCORES c2.condition) :
    ∃ v1 v2, calculateCoinValue c1 = some v1 ∧ calculateCoinValue c2 = some v2 ∧
      v1 ≤ v2 := by
  have hs1 := calculateCoinScore_eq c1 m1 h1
  have hs2 := calculateCoinScore_eq c2 m2 h2
  refine ⟨_, _, calculateCoinValue_eq c1 _ hs1, calculateCoinValue_eq c2 _ hs2, ?_⟩
  apply Int.floor_le_floor
  apply Real.rpow_le_rpow_of_exponent_le (by norm_num)
  apply mul_le_mul_of_nonneg_right ?_ (by norm_num)
  have hyq : (c2.year : ℚ) ≤ (c1.year : ℚ) := by exact_mod_cast hyear
  have hsle : ((METAL_WEIGHTS m1 + ((2025 : ℚ) - (c1.year : ℚ)) / 2525 * 10 +
      CONDITION_SCORES c1.condition / 6 * 10) / 30 * 10 : ℚ) ≤
      ((METAL_WEIGHTS m2 + ((2025 : ℚ) - (c2.year : ℚ)) / 2525 * 10 +
      CONDITION_SCORES c2.condition / 6 * 10) / 30 * 10 : ℚ) := by
    linarith
  exact_mod_cast hsle

/-- Closed witness for value monotonicity: two coins differing only in metal
(Copper versus Gold). -/
theorem coin_value_monotone_witness :
    METAL_WEIGHTS .Copper ≤ METAL_WEIGHTS .Gold ∧
    coinGold2000.year ≤ coinCopper2000.year ∧
    CONDITION_SCORES coinCopper2000.condition ≤
      CONDITION_SCORES coinGold2000.condition ∧
    ∃ v1 v2, calculateCoinValue coinCopper2000 = some v1 ∧
      calculateCoinValue coinGold2000 = some v2 ∧ v1 ≤ v2 :=
  ⟨by decide, by decide, by decide,
    coin_value_monotone coinCopper2000 coinGold2000 .Copper .Gold
      (by decide) (by decide) (by decide) (by decide) (by decide)⟩

/-! ## Range respect, empty profiles and metal selection -/

theorem val_mem_of_aligned (rand : ℤ → ℚ) (r : Range) (off : ℤ) (step : ℚ)
    (hs : 0 < step) (hsa : StepAligned r step)
    (h0 : 0 ≤ rand off) (h1 : rand off < 1) :
    r.min ≤ val rand r off step ∧ val rand r off step ≤ r.max := by
  obtain ⟨⟨a, ha⟩, ⟨b, hb⟩, hab⟩ := hsa
  exact val_mem rand r off step a b hs ha hb hab h0 h1

theorem jsRound_intCast (k : ℤ) : jsRound ((k : ℚ)) = k := by
  unfold jsRound
  apply Int.floor_eq_iff.mpr
  constructor <;> push_cast <;> linarith

theorem petalCount_mem_of_aligned (rand : ℤ → ℚ) (r : Range) (off : ℤ)
    (hsa : StepAligned r 1) (h0 : 0 ≤ rand off) (h1 : rand off < 1) :
    r.min ≤ (jsRound (val rand r off 1) : ℚ) ∧
      (jsRound (val rand r off 1) : ℚ) ≤ r.max := by
  obtain ⟨⟨a, ha⟩, ⟨b, hb⟩, hab⟩ := hsa
  obtain ⟨k, hk, hak, hkb⟩ := val_snap rand r off 1 a b one_pos ha hb hab h0 h1
  rw [hk, mul_one, jsRound_intCast, ha, hb, mul_one, mul_one]
  exact ⟨by exact_mod_cast hak, by exact_mod_cast hkb⟩

/-- C6 (amended): every generated continuous attribute lies within the
profile's declared `[min, max]` provided both endpoints sit on that
attribute's snapping-step grid (0.1 for `shapeJitter`, 1 for `petalCount`,
0.01 for the rest); with endpoints off the grid the snapping can leave the
interval (see the counterexample). -/
theorem visual_overrides_in_range (cellX cellY : ℤ) (p : DesignProfile)
    (h1 : StepAligned p.shapeJitter 0.1) (h2 : StepAligned p.petalCount 1)
    (h3 : StepAligned p.petalLength 0.01) (h4 : StepAligned p.petalWidth 0.01)
    (h5 : StepAligned p.petalSharpness 0.01) (h6 : StepAligned p.centerRadius 0.01) :
    (p.shapeJitter.min ≤
        (generateCoinFromProfile cellX cellY p).visualOverrides.shapeJitter ∧
      (generateCoinFromProfile cellX cellY p).visualOverrides.shapeJitter ≤
        p.shapeJitter.max) ∧
    (p.petalCount.min ≤
        ((generateCoinFromProfile cellX cellY p).visualOverrides.petalCount : ℚ) ∧
      ((generateCoinFromProfile cellX cellY p).visualOverrides.petalCount : ℚ) ≤
        p.petalCount.max) ∧
    (p.petalLength.min ≤
        (generateCoinFromProfile cellX cellY p).visualOverrides.petalLength ∧
      (generateCoinFromProfile cellX cellY p).visualOverrides.petalLength ≤
        p.petalLength.max) ∧
    (p.petalWidth.min ≤
        (generateCoinFromProfile cellX cellY p).visualOverrides.petalWidth ∧
      (generateCoinFromProfile cellX cellY p).visualOverrides.petalWidth ≤
        p.petalWidth.max) ∧
    (p.petalSharpness.min ≤
        (generateCoinFromProfile cellX cellY p).visualOverrides.petalSharpness ∧
      (generateCoinFromProfile cellX cellY p).visualOverrides.petalSharpness ≤
        p.petalSharpness.max) ∧
    (p.centerRadius.min ≤
        (generateCoinFromProfile cellX cellY p).visualOverrides.centerRadius ∧
      (generateCoinFromProfile cellX cellY p).visualOverrides.centerRadius ≤
        p.centerRadius.max) := by
  refine ⟨?_, ?_, ?_, ?_, ?_, ?_⟩
  · exact val_mem_of_aligned (fun off => seededRandom (coinSeed cellX cellY + off))
      p.shapeJitter 10 0.1 (by norm_num) h1 (seededRandom_nonneg _) (seededRandom_lt_one _)
  · exact petalCount_mem_of_aligned (fun off => seededRandom (coinSeed cellX cellY + off))
      p.petalCount 11 h2 (seededRandom_nonneg _) (seededRandom_lt_one _)
  · exact val_mem_of_aligned (fun off => seededRandom (coinSeed cellX cellY + off))
      p.petalLength 12 0.01 (by norm_num) h3 (seededRandom_nonneg _) (seededRandom_lt_one _)
  · exact val_mem_of_aligned (fun off => seededRandom (coinSeed cellX cellY + off))
      p.petalWidth 13 0.01 (by norm_num) h4 (seededRandom_nonneg _) (seededRandom_lt_one _)
  · exact val_mem_of_aligned (fun off => seededRandom (coinSeed cellX cellY + off))
      p.petalSharpness 14 0.01 (by norm_num) h5 (seededRandom_nonneg _) (seededRandom_lt_one _)
  · exact val_mem_of_aligned (fun off => seededRandom (coinSeed cellX cellY + off))
      p.centerRadius 15 0.01 (by norm_num) h6 (seededRandom_nonneg _) (seededRandom_lt_one _)

/-- Closed witness for the amended range-respect claim, at the shipped
ANCIENT profile (all of whose range endpoints are grid-aligned). -/
theorem visual_overrides_in_range_witness :
    (GENERATOR_ANCIENT.shapeJitter.min ≤
        (generateCoinFromProfile 0 0 GENERATOR_ANCIENT).visualOverrides.shapeJitter ∧
      (generateCoinFromProfile 0 0 GENERATOR_ANCIENT).visualOverrides.shapeJitter ≤
        GENERATOR_ANCIENT.shapeJitter.max) ∧
    (GENERATOR_ANCIENT.petalCount.min ≤
        ((generateCoinFromProfile 0 0 GENERATOR_ANCIENT).visualOverrides.petalCount : ℚ) ∧
      ((generateCoinFromProfile 0 0 GENERATOR_ANCIENT).visualOverrides.petalCount : ℚ) ≤
        GENERATOR_ANCIENT.petalCount.max) ∧
    (GENERATOR_ANCIENT.petalLength.min ≤
        (generateCoinFromProfile 0 0 GENERATOR_ANCIENT).visualOverrides.petalLength ∧
      (generateCoinFromProfile 0 0 GENERATOR_ANCIENT).visualOverrides.petalLength ≤
        GENERATOR_ANCIENT.petalLength.max) ∧
    (GENERATOR_ANCIENT.petalWidth.min ≤
        (generateCoinFromProfile 0 0 GENERATOR_ANCIENT).visualOverrides.petalWidth ∧
      (generateCoinFromProfile 0 0 GENERATOR_ANCIENT).visualOverrides.petalWidth ≤
        GENERATOR_ANCIENT.petalWidth.max) ∧
    (GENERATOR_ANCIENT.petalSharpness.min ≤
        (generateCoinFromProfile 0 0 GENERATOR_ANCIENT).visualOverrides.petalSharpness ∧
      (generateCoinFromProfile 0 0 GENERATOR_ANCIENT).visualOverrides.petalSharpness ≤
        GENERATOR_ANCIENT.petalSharpness.max) ∧
    (GENERATOR_ANCIENT.centerRadius.min ≤
        (generateCoinFromProfile 0 0 GENERATOR_ANCIENT).visualOverrides.centerRadius ∧
      (generateCoinFromProfile 0 0 GENERATOR_ANCIENT).visualOverrides.centerRadius ≤
        GENERATOR_ANCIENT.centerRadius.max) :=
  visual_overrides_in_range 0 0 GENERATOR_ANCIENT
    ⟨⟨8, by decide⟩, ⟨57, by decide⟩, by decide⟩
    ⟨⟨20, by decide⟩, ⟨24, by decide⟩, by decide⟩
    ⟨⟨40, by decide⟩, ⟨71, by decide⟩, by decide⟩
    ⟨⟨55, by decide⟩, ⟨59, by decide⟩, by decide⟩
    ⟨⟨150, by decide⟩, ⟨200, by decide⟩, by decide⟩
    ⟨⟨28, by decide⟩, ⟨60, by decide⟩, by decide⟩

/-- C6 counterexample: `misalignedProfile` satisfies the claim's hypothesis
(every range has `min ≤ max`), yet the generated `shapeJitter` at `(0, 0)`
snaps to 0.6, strictly above the declared maximum 0.55. -/
theorem visual_override_range_cex :
    misalignedProfile.shapeJitter.min ≤ misalignedProfile.shapeJitter.max ∧
    misalignedProfile.petalCount.min ≤ misalignedProfile.petalCount.max ∧
    misalignedProfile.petalLength.min ≤ misalignedProfile.petalLength.max ∧
    misalignedProfile.petalWidth.min ≤ misalignedProfile.petalWidth.max ∧
    misalignedProfile.petalSharpness.min ≤ misalignedProfile.petalSharpness.max ∧
    misalignedProfile.centerRadius.min ≤ misalignedProfile.centerRadius.max ∧
    misalignedProfile.yearRange.min ≤ misalignedProfile.yearRange.max ∧
    (generateCoinFromProfile 0 0 misalignedProfile).visualOverrides.shapeJitter = 3/5 ∧
    ¬((generateCoinFromProfile 0 0 misalignedProfile).visualOverrides.shapeJitter ≤
        misalignedProfile.shapeJitter.max) := by
  decide

/-- Closed witness for the age-condition coupling: at `(5, 5)` with the
scenario profile the generated year is 1347, so the age falls in the middle
band and the condition is decided by comparing the roll with 0.7. -/
theorem condition_coupled_to_age_witness :
    (200 < 2025 - (generateCoinFromProfile 5 5 scenarioProfile).year ∧
      2025 - (generateCoinFromProfile 5 5 scenarioProfile).year ≤ 1000) ∧
    (generateCoinFromProfile 5 5 scenarioProfile).condition =
      (if (0.7:ℚ) < seededRandom (coinSeed 5 5 + 4)
        then .VeryFine else .Good) :=
  ⟨⟨by decide, by decide⟩,
    (condition_coupled_to_age 5 5 scenarioProfile).2.1 (by decide) (by decide)⟩

/-- C8 (amended): if `allowedMetals` is empty — or, independently, if
`allowedPatterns` is empty — the generator still returns a complete record
deterministically (no exception: a JS out-of-bounds read is just
`undefined`), but the affected field is `undefined` (`none`) — no documented
fallback metal or pattern is applied.  The two selection sets are covered by
independent implications, so either list being empty on its own is covered. -/
theorem empty_profile_no_fallback (cellX cellY : ℤ) (p : DesignProfile) :
    (p.allowedMetals = [] →
      (generateCoinFromProfile cellX cellY p).metal = none) ∧
    (p.allowedPatterns = [] →
      (generateCoinFromProfile cellX cellY p).pattern = none) := by
  constructor
  · intro hm
    have h1 : (generateCoinFromProfile cellX cellY p).metal =
        pick (fun off => seededRandom (coinSeed cellX cellY + off)) p.allowedMetals 1 := rfl
    rw [h1, hm]
    simp [pick]
  · intro hp
    have h2 : (generateCoinFromProfile cellX cellY p).pattern =
        pick (fun off => seededRandom (coinSeed cellX cellY + off)) p.allowedPatterns 3 := rfl
    rw [h2, hp]
    simp [pick]

/-- Closed witness for the amended empty-profile claim, exercising both
one-empty cases: a profile with only `allowedMetals` empty and a profile
with only `allowedPatterns` empty. -/
theorem empty_profile_no_fallback_witness :
    emptyMetalsProfile.allowedMetals = [] ∧
    emptyMetalsProfile.allowedPatterns ≠ [] ∧
    (generateCoinFromProfile 3 4 emptyMetalsProfile).metal = none ∧
    emptyPatternsProfile.allowedPatterns = [] ∧
    emptyPatternsProfile.allowedMetals ≠ [] ∧
    (generateCoinFromProfile 3 4 emptyPatternsProfile).pattern = none :=
  ⟨rfl, by decide, (empty_profile_no_fallback 3 4 emptyMetalsProfile).1 rfl,
    rfl, by decide, (empty_profile_no_fallback 3 4 emptyPatternsProfile).2 rfl⟩

/-- C8 counterexample: at `(0, 0)` with empty selection sets the generated
`metal` and `pattern` are `none` (JS `undefined`), so no fixed fallback
metal/pattern value is ever applied. -/
theorem empty_profile_cex :
    (generateCoinFromProfile 0 0 emptyListsProfile).metal = none ∧
    (generateCoinFromProfile 0 0 emptyListsProfile).pattern = none := by
  decide

/-- C9: with a non-empty `allowedMetals` the selection index
`floor(rand * n)` is in bounds and the generated metal is an element of
`allowedMetals`; with integer year bounds `a ≤ b` the generated year lies in
`[a, b]`. -/
theorem allowed_metals_respected (cellX cellY : ℤ) (p : DesignProfile) (a b : ℤ)
    (hne : p.allowedMetals ≠ [])
    (ha : p.yearRange.min = (a : ℚ)) (hb : p.yearRange.max = (b : ℚ)) (hab : a ≤ b) :
    (0 ≤ ⌊seededRandom (coinSeed cellX cellY + 1) * (p.allowedMetals.length : ℚ)⌋ ∧
      ⌊seededRandom (coinSeed cellX cellY + 1) * (p.allowedMetals.length : ℚ)⌋ <
        (p.allowedMetals.length : ℤ)) ∧
    (∃ m ∈ p.allowedMetals, (generateCoinFromProfile cellX cellY p).metal = some m) ∧
    (a ≤ (generateCoinFromProfile cellX cellY p).year ∧
      (generateCoinFromProfile cellX cellY p).year ≤ b) := by
  obtain ⟨hi0, hilt, m, hmem, hpick⟩ :=
    pick_mem (fun off => seededRandom (coinSeed cellX cellY + off)) p.allowedMetals 1
      (seededRandom_nonneg _) (seededRandom_lt_one _) hne
  have hmetal : (generateCoinFromProfile cellX cellY p).metal =
      pick (fun off => seededRandom (coinSeed cellX cellY + off)) p.allowedMetals 1 := rfl
  have hyear : (generateCoinFromProfile cellX cellY p).year =
      ⌊val (fun off => seededRandom (coinSeed cellX cellY + off)) p.yearRange 2 1⌋ := rfl
  obtain ⟨k, hk, hak, hkb⟩ :=
    val_snap (fun off => seededRandom (coinSeed cellX cellY + off)) p.yearRange 2 1 a b
      one_pos (by rw [ha, mul_one]) (by rw [hb, mul_one])
      (by rw [ha, hb]; exact_mod_cast hab)
      (seededRandom_nonneg _) (seededRandom_lt_one _)
  refine ⟨⟨hi0, hilt⟩, ⟨m, hmem, by rw [hmetal, hpick]⟩, ?_⟩
  rw [hyear, hk, mul_one, Int.floor_intCast]
  exact ⟨hak, hkb⟩

/-- Closed witness for metal selection: the spec scenario at `(5, 5)` with
`allowedMetals = [Copper]` and `yearRange = [-500, 1800]` yields the metal
`Copper` and a year in range. -/
theorem allowed_metals_respected_witness :
    (∃ m ∈ scenarioProfile.allowedMetals,
      (generateCoinFromProfile 5 5 scenarioProfile).metal = some m) ∧
    (-500 ≤ (generateCoinFromProfile 5 5 scenarioProfile).year ∧
      (generateCoinFromProfile 5 5 scenarioProfile).year ≤ 1800) ∧
    (generateCoinFromProfile 5 5 scenarioProfile).metal = some .Copper := by
  obtain ⟨hidx, hmem, hyear⟩ := allowed_metals_respected 5 5 scenarioProfile (-500) 1800
    (by decide) (by decide) (by decide) (by decide)
  exact ⟨hmem, hyear, by decide⟩

end C36
